import Mathlib

/-!
Verification development for the conversational filing bot in `public_bot.py`.

Strings are modelled as `List Char` (named `Str` below); Python's
`str.strip` / `str.lower` / `str.replace` / `str.startswith` / `str.isdigit`
are embedded over the ASCII range, which covers every string the program
compares against.
-/

namespace KakBot

/-- Program strings, modelled as lists of characters. -/
abbrev Str := List Char

/-- Whitespace recognised by Python's `str.strip` (ASCII range). -/
def pyIsSpace (c : Char) : Bool :=
  c.toNat == 32 || c.toNat == 9 || c.toNat == 10 ||
  c.toNat == 11 || c.toNat == 12 || c.toNat == 13

/-- ASCII case folding of one character, as Python's `str.lower` does on ASCII. -/
def pyToLowerChar (c : Char) : Char :=
  if 65 ≤ c.toNat ∧ c.toNat ≤ 90 then Char.ofNat (c.toNat + 32) else c

/-- Python `str.lower` (ASCII range). -/
def pyLower (s : Str) : Str := s.map pyToLowerChar

/-- Drop leading whitespace. -/
def stripLeading (s : Str) : Str := s.dropWhile pyIsSpace

/-- Drop trailing whitespace. -/
def stripTrailing (s : Str) : Str := (s.reverse.dropWhile pyIsSpace).reverse

/-- Python `str.strip`. -/
def pyStrip (s : Str) : Str := stripTrailing (stripLeading s)

/-- Python `str.replace (c, "")`: remove every occurrence of a character. -/
def removeChar (c : Char) (s : Str) : Str := s.filter (fun a => a != c)

/-- Python `str.startswith`. -/
def strStartsWith (p s : Str) : Bool := s.take p.length == p

/-- A decimal digit, as Python's `str.isdigit` sees ASCII characters. -/
def pyIsDigitChar (c : Char) : Bool := 48 ≤ c.toNat && c.toNat ≤ 57

/-- Python `str.isdigit`: nonempty and all digits. -/
def pyIsDigitStr (s : Str) : Bool := !s.isEmpty && s.all pyIsDigitChar

def plusTxt : Str := ['+']

def zeroZeroTxt : Str := ['0', '0']

def zeroTxt : Str := ['0']

def ccTxt : Str := ['+', '9', '1']

/-- The cleanup prelude of `normalize_phone_number`:
`raw_phone.strip().replace(" ", "").replace("-", "")`. -/
def cleanedPhone (raw : Str) : Str := removeChar '-' (removeChar ' ' (pyStrip raw))

/-- Line 90-91 of `normalize_phone_number`: drop an international `00`. -/
def dropTwoZeros (p : Str) : Str :=
  if strStartsWith zeroZeroTxt p then p.drop 2 else p

/-- Line 92-93 of `normalize_phone_number`: drop a single leading `0`. -/
def dropOneZero (p : Str) : Str :=
  if strStartsWith zeroTxt p then p.drop 1 else p

/-- The two leading-zero removals of `normalize_phone_number` (lines 90-93). -/
def dropLeadZeros (p : Str) : Str := dropOneZero (dropTwoZeros p)

/-- The tail of `normalize_phone_number` (lines 94-98): default country code for
bare 10-digit numbers, otherwise ensure a leading plus. -/
def plusTail (phone3 : Str) : Str :=
  if phone3.length == 10 && pyIsDigitStr phone3 then ccTxt ++ phone3
  else if !(strStartsWith plusTxt phone3) then '+' :: phone3
  else phone3

/-- `normalize_phone_number` from `public_bot.py` (lines 85-98). -/
def normalize_phone_number (raw : Str) : Str :=
  if strStartsWith plusTxt (cleanedPhone raw) then cleanedPhone raw
  else plusTail (dropLeadZeros (cleanedPhone raw))

/-! ### Keywords and fixed strings of the conversation handlers -/

def kwResend : Str := "resend".toList

def kwSkip : Str := "skip".toList

def kwCancel : Str := "cancel".toList

def kwYes : Str := "yes".toList

def kwCorrect : Str := "correct".toList

def kwOk : Str := "ok".toList

def kwY : Str := "y".toList

def kwNo : Str := "no".toList

def kwNone : Str := "none".toList

/-- The generic category substituted for a `skip` reply (line 509). -/
def kwGeneral : Str := "General Complaint".toList

/-- The accepted confirmation replies of `complaint_type` (line 506). -/
def yesWords : List Str := [kwYes, kwCorrect, kwOk, kwY]

/-- The skip words of `complaint_description` (line 542). -/
def noWords : List Str := [kwNo, kwSkip, kwNone]

def imageMarker : Str := "image/".toList

def jpgTxt : Str := "jpg".toList

def slashTxt : Str := "/".toList

def cancelCmdTxt : Str := "/cancel".toList

def underscoreTxt : Str := "_".toList

def dotTxt : Str := ".".toList

/-- `"\n\nAdditional Details: "` glue of line 545. -/
def addlDetailsTxt : Str := "\n\nAdditional Details: ".toList

/-- `"Nearest Police Station in "` of line 560. -/
def policeStationTxt : Str := "Nearest Police Station in ".toList

def aadhaarComplaintTag : Str := "aadhaar_complaint_".toList

def aadhaarRtiTag : Str := "aadhaar_rti_".toList

def trafficTag : Str := "traffic_".toList

def jpgExtTxt : Str := ".jpg".toList

/-- Storage directory for complaint Aadhaar uploads. The concrete value lives
in `config.py`, which is not among the sources; the value is irrelevant to the
claims, only that paths are built under it. -/
def AADHAAR_COMPLAINT_DIR : Str := "storage/aadhaar_complaint".toList

/-- Storage directory for RTI Aadhaar uploads (see `AADHAAR_COMPLAINT_DIR`). -/
def AADHAAR_RTI_DIR : Str := "storage/aadhaar_rti".toList

/-- Storage directory for traffic photos (see `AADHAAR_COMPLAINT_DIR`). -/
def TRAFFIC_DIR : Str := "storage/traffic_violations".toList

/-! ### Inbound messages and per-event collaborator outcomes -/

/-- One inbound chat message, as the handlers see it: text, a photo payload, a
generic document (with declared mime type and file name), or any other media
kind. -/
inductive Msg where
  | text (t : Str)
  | photo
  | doc (mime : Option Str) (fname : Option Str)
  | otherMedia
deriving DecidableEq

/-- One inbound event: the message plus the outcome every external collaborator
would return if called while processing it.  `sendOk` is `otp_service.send_otp`,
`verifyOk` is `otp_service.verify_otp`, `classify` is `ai.send_message` at the
initial-description step (`none` = raised), `lookup` is
`ai.get_applicable_laws`'s collaborator outcome (`none` = failure), `render` is
the PDF generator (`none` = raised), `saveId` is the database save (`none` =
raised), and `ts` is the timestamp used in storage filenames. -/
structure Ev where
  msg : Msg
  sendOk : Bool := true
  verifyOk : Bool := false
  classify : Option Str := none
  lookup : Option Str := none
  render : Option Str := none
  saveId : Option Nat := none
  ts : Str := []
deriving DecidableEq

/-- The `context.user_data['complaint']` dictionary: absent keys are `none`. -/
structure Session where
  user_id : Str
  name : Option Str := none
  father_name : Option Str := none
  age : Option Str := none
  phone : Option Str := none
  otp_attempts : Nat := 0
  email : Option Str := none
  aadhaar_photo_path : Option Str := none
  address : Option Str := none
  initial_description : Option Str := none
  suggested_type : Option Str := none
  complaint_type : Option Str := none
  incident_date : Option Str := none
  incident_location : Option Str := none
  description : Option Str := none
  applicable_laws : Option Str := none
  police_station : Option Str := none
  pdf_path : Option Str := none
deriving DecidableEq

/-- The complaint conversation states (lines 40-54). -/
inductive CState where
  | askName
  | askFather
  | askAge
  | askPhone
  | askOtp
  | askEmail
  | askAadhaar
  | askAddress
  | askInitialDesc
  | askType
  | askDate
  | askLocation
  | askDescription
deriving DecidableEq

/-- Tags for the user-visible replies the handlers emit. -/
inductive Reply where
  | promptNext
  | otpSent
  | otpSendFail
  | otpResent
  | otpResendFail
  | otpVerified
  | otpIncorrect
  | otpFailedMax
  | cancelled
  | cancelledCmd
  | aadhaarRejectText
  | aadhaarRejectDoc
  | aadhaarRejectOther
  | aadhaarAccepted
  | typeSuggested
  | typeManualPrompt
  | finalized (recId : Nat)
  | finalizeError
deriving DecidableEq

/-- Result of one handler invocation: the mutated session, the next
conversation state (`none` = `ConversationHandler.END`), the reply sent, and
whether `verify_otp` / `send_otp` were invoked while handling the event. -/
structure HRes where
  sess : Session
  st : Option CState
  reply : Reply
  verifyCalled : Bool := false
  issueCalled : Bool := false
deriving DecidableEq

/-! ### Complaint flow handlers (lines 293-604) -/

/-- `complaint_start` (lines 293-306): fresh session, first question. -/
def complaint_start (uid : Str) : Session := { user_id := uid }

/-- `complaint_name` (lines 309-312). -/
def complaint_name (s : Session) (t : Str) : HRes :=
  ⟨{ s with name := some t }, some .askFather, .promptNext, false, false⟩

/-- `complaint_father_name` (lines 315-318). -/
def complaint_father_name (s : Session) (t : Str) : HRes :=
  ⟨{ s with father_name := some t }, some .askAge, .promptNext, false, false⟩

/-- `complaint_age` (lines 321-324). -/
def complaint_age (s : Session) (t : Str) : HRes :=
  ⟨{ s with age := some t }, some .askPhone, .promptNext, false, false⟩

/-- `complaint_phone` (lines 327-344): store the normalized number, send an
OTP; on success zero the attempt counter and move to the OTP step, on failure
re-prompt at the phone step. -/
def complaint_phone (s : Session) (t : Str) (ev : Ev) : HRes :=
  let s2 := { s with phone := some (normalize_phone_number t) }
  if ev.sendOk then
    ⟨{ s2 with otp_attempts := 0 }, some .askOtp, .otpSent, false, true⟩
  else
    ⟨s2, some .askPhone, .otpSendFail, false, true⟩

/-- The `code.lower() == "resend"` test of `complaint_otp` (line 352), applied
to the stripped input. -/
def isResendCode (t : Str) : Bool := pyLower (pyStrip t) == kwResend

/-- `complaint_otp` (lines 347-386): `resend` re-issues the code and leaves the
session alone; anything else increments the attempt counter, then checks the
code; success advances, failure re-prompts below 3 attempts and ends the
conversation at 3. -/
def complaint_otp (s : Session) (t : Str) (ev : Ev) : HRes :=
  if isResendCode t then
    if ev.sendOk then ⟨s, some .askOtp, .otpResent, false, true⟩
    else ⟨s, some .askOtp, .otpResendFail, false, true⟩
  else
    let attempts := s.otp_attempts + 1
    let s2 := { s with otp_attempts := attempts }
    if ev.verifyOk then ⟨s2, some .askEmail, .otpVerified, true, false⟩
    else if 3 ≤ attempts then ⟨s2, none, .otpFailedMax, true, false⟩
    else ⟨s2, some .askOtp, .otpIncorrect, true, false⟩

/-- `complaint_email` (lines 389-401). -/
def complaint_email (s : Session) (t : Str) : HRes :=
  let e := pyStrip t
  if pyLower e == kwSkip then ⟨s, some .askAadhaar, .promptNext, false, false⟩
  else ⟨{ s with email := some e }, some .askAadhaar, .promptNext, false, false⟩

/-- `os.path.splitext(p)[1]` for a bare filename: the part from the last dot
on, provided some earlier character is not a dot. -/
def splitextExt (p : Str) : Str :=
  if p.contains '.' then
    let tailLen := (p.reverse.takeWhile (fun c => c != '.')).length
    let i := p.length - 1 - tailLen
    if (p.take i).any (fun c => c != '.') then p.drop i else []
  else []

/-- The document-suffix computation of line 435:
`(os.path.splitext(doc.file_name or "")[1].lstrip(".") or "jpg").lower()`. -/
def docSuffix (fname : Option Str) : Str :=
  let ext := (splitextExt (fname.getD [])).dropWhile (fun c => c == '.')
  pyLower (if ext.isEmpty then jpgTxt else ext)

/-- The storage path for a complaint Aadhaar image (lines 443-447). -/
def aadhaarComplaintPath (uid ts suffix : Str) : Str :=
  AADHAAR_COMPLAINT_DIR ++ slashTxt ++ aadhaarComplaintTag ++ uid ++
    underscoreTxt ++ ts ++ dotTxt ++ suffix

/-- `complaint_aadhaar` (lines 404-458): text is only for cancellation (any
other text re-prompts); a photo payload is accepted; a document is accepted
exactly when its declared mime type is truthy and starts with `image/`; on
acceptance the storage path is recorded on the session. -/
def complaint_aadhaar (s : Session) (m : Msg) (ev : Ev) : HRes :=
  match m with
  | .text t =>
    if !t.isEmpty then
      if pyLower t == kwCancel then ⟨s, none, .cancelled, false, false⟩
      else ⟨s, some .askAadhaar, .aadhaarRejectText, false, false⟩
    else ⟨s, some .askAadhaar, .aadhaarRejectOther, false, false⟩
  | .photo =>
    let path := aadhaarComplaintPath s.user_id ev.ts jpgTxt
    ⟨{ s with aadhaar_photo_path := some path }, some .askAddress, .aadhaarAccepted,
      false, false⟩
  | .doc mime fname =>
    if mime.getD [] |>.isEmpty then
      ⟨s, some .askAadhaar, .aadhaarRejectDoc, false, false⟩
    else if !(strStartsWith imageMarker (mime.getD [])) then
      ⟨s, some .askAadhaar, .aadhaarRejectDoc, false, false⟩
    else
      let path := aadhaarComplaintPath s.user_id ev.ts (docSuffix fname)
      ⟨{ s with aadhaar_photo_path := some path }, some .askAddress, .aadhaarAccepted,
        false, false⟩
  | .otherMedia => ⟨s, some .askAadhaar, .aadhaarRejectOther, false, false⟩

/-- `complaint_address` (lines 461-468). -/
def complaint_address (s : Session) (t : Str) : HRes :=
  ⟨{ s with address := some t }, some .askInitialDesc, .promptNext, false, false⟩

/-- `complaint_initial_description` (lines 471-500): store the description,
ask the classifier for a suggested type; on classifier failure fall back to a
manual type prompt. -/
def complaint_initial_description (s : Session) (t : Str) (ev : Ev) : HRes :=
  let s2 := { s with initial_description := some t }
  match ev.classify with
  | some ct =>
    ⟨{ s2 with suggested_type := some (pyStrip ct) }, some .askType, .typeSuggested,
      false, false⟩
  | none => ⟨s2, some .askType, .typeManualPrompt, false, false⟩

/-- `complaint_type` (lines 503-515): a stripped confirmation word accepts the
stored suggestion (or, absent one, stores the stripped input); `skip`
substitutes the generic category; anything else is stored stripped. -/
def complaint_type (s : Session) (t : Str) : HRes :=
  let u := pyStrip t
  let ct :=
    if yesWords.contains (pyLower u) then s.suggested_type.getD u
    else if pyLower u == kwSkip then kwGeneral
    else u
  ⟨{ s with complaint_type := some ct }, some .askDate, .promptNext, false, false⟩

/-- `complaint_date` (lines 518-525). -/
def complaint_date (s : Session) (t : Str) : HRes :=
  ⟨{ s with incident_date := some t }, some .askLocation, .promptNext, false, false⟩

/-- `complaint_location` (lines 528-535). -/
def complaint_location (s : Session) (t : Str) : HRes :=
  ⟨{ s with incident_location := some t }, some .askDescription, .promptNext, false, false⟩

/-- Modelled from the spec: `GeminiAI.get_applicable_laws` lives in
`utils/ai_helper.py`, which is not among the sources here.  Per the spec,
failure of the applicable-legal-basis lookup degrades gracefully and record
assembly proceeds with an empty legal-basis field rather than aborting, so the
lookup is modelled as returning the collaborator's text on success and empty
text on failure. -/
def get_applicable_laws (_ctype _desc : Str) (outcome : Option Str) : Str :=
  outcome.getD []

/-- `complaint_description` (lines 538-604), the filing-flow finalizer: build
the final description, fetch applicable laws (degrading to empty text), derive
the police-station line, then render the PDF and save; a rendering or saving
failure reports an error, and the conversation ends either way. -/
def complaint_description (s : Session) (t : Str) (ev : Ev) : HRes :=
  let initial := s.initial_description.getD []
  let finalDesc :=
    if noWords.contains (pyLower t) then initial
    else initial ++ addlDetailsTxt ++ t
  let s2 := { s with description := some finalDesc }
  let ctype := s2.complaint_type.getD kwGeneral
  let laws := get_applicable_laws ctype finalDesc ev.lookup
  let s3 := { s2 with applicable_laws := some laws }
  let police := policeStationTxt ++ s3.incident_location.getD []
  let s4 := { s3 with police_station := some police }
  match ev.render with
  | none => ⟨s4, none, .finalizeError, false, false⟩
  | some pdfPath =>
    let s5 := { s4 with pdf_path := some pdfPath }
    match ev.saveId with
    | none => ⟨s5, none, .finalizeError, false, false⟩
    | some recId => ⟨s5, none, .finalized recId, false, false⟩

/-! ### The complaint conversation machine (ConversationHandler, lines 1167-1186) -/

/-- A live complaint conversation: the session dictionary plus the current
state; `st = none` means the conversation has ended. -/
structure CConfig where
  sess : Session
  st : Option CState
deriving DecidableEq

/-- The configuration `/complaint` creates (lines 293-306). -/
def complaintStartCfg (uid : Str) : CConfig :=
  ⟨complaint_start uid, some .askName⟩

/-- Whether a text message passes the `filters.TEXT & ~filters.COMMAND`
filter: nonempty and not a bot command. -/
def textOk (t : Str) : Bool := !t.isEmpty && !strStartsWith slashTxt t

/-- Dispatch result: the new configuration plus which reply was sent and
whether `verify_otp`/`send_otp` ran. -/
structure DRes where
  cfg : CConfig
  reply : Option Reply
  verifyCalled : Bool
  issueCalled : Bool
deriving DecidableEq

/-- Wrap a handler result as a dispatch result. -/
def liftH (r : HRes) : DRes := ⟨⟨r.sess, r.st⟩, some r.reply, r.verifyCalled, r.issueCalled⟩

/-- A dispatch that leaves everything unchanged (no handler matched). -/
def noDispatch (c : CConfig) : DRes := ⟨c, none, false, false⟩

/-- Route a delivered text message to the handler of the current complaint
state (the `states` table of lines 1169-1183). -/
def complaintTextHandler (st : CState) (s : Session) (t : Str) (ev : Ev) : HRes :=
  match st with
  | .askName => complaint_name s t
  | .askFather => complaint_father_name s t
  | .askAge => complaint_age s t
  | .askPhone => complaint_phone s t ev
  | .askOtp => complaint_otp s t ev
  | .askEmail => complaint_email s t
  | .askAadhaar => complaint_aadhaar s (.text t) ev
  | .askAddress => complaint_address s t
  | .askInitialDesc => complaint_initial_description s t ev
  | .askType => complaint_type s t
  | .askDate => complaint_date s t
  | .askLocation => complaint_location s t
  | .askDescription => complaint_description s t ev

/-- One inbound event against the complaint conversation: commands hit only
the `/cancel` fallback; text goes to the current state's handler; photo and
document payloads are accepted only at the Aadhaar step; anything else is not
delivered.  After the conversation has ended no handler runs. -/
def complaintDispatch (c : CConfig) (ev : Ev) : DRes :=
  match c.st with
  | none => noDispatch c
  | some st =>
    match ev.msg with
    | .text t =>
      if strStartsWith slashTxt t then
        if t = cancelCmdTxt then ⟨⟨c.sess, none⟩, some .cancelledCmd, false, false⟩
        else noDispatch c
      else if t.isEmpty then noDispatch c
      else liftH (complaintTextHandler st c.sess t ev)
    | .photo =>
      match st with
      | .askAadhaar => liftH (complaint_aadhaar c.sess .photo ev)
      | _ => noDispatch c
    | .doc mime fname =>
      match st with
      | .askAadhaar => liftH (complaint_aadhaar c.sess (.doc mime fname) ev)
      | _ => noDispatch c
    | .otherMedia => noDispatch c

/-- One step of the complaint machine. -/
def complaintStep (c : CConfig) (ev : Ev) : CConfig := (complaintDispatch c ev).cfg

/-- Run the complaint machine over a list of events. -/
def runComplaint : CConfig → List Ev → CConfig
  | c, [] => c
  | c, ev :: evs => runComplaint (complaintStep c ev) evs

/-- Run the complaint machine, also counting how many times `verify_otp` was
evaluated. -/
def runComplaintChecks : CConfig → List Ev → CConfig × Nat
  | c, [] => (c, 0)
  | c, ev :: evs =>
    let d := complaintDispatch c ev
    let p := runComplaintChecks d.cfg evs
    (p.1, (if d.verifyCalled then 1 else 0) + p.2)

/-- An event carrying a plain text message whose OTP check returns `v`. -/
def mkCodeEv (t : Str) (v : Bool) : Ev :=
  { msg := .text t, verifyOk := v }

/-- An event carrying the text `t` (a resend request) whose OTP dispatch
returns `b`. -/
def mkResendEv (t : Str) (b : Bool) : Ev :=
  { msg := .text t, sendOk := b }

/-! ### RTI flow (lines 608-839) -/

/-- The `context.user_data['rti']` dictionary. -/
structure RSession where
  user_id : Str
  name : Option Str := none
  phone : Option Str := none
  otp_attempts : Nat := 0
  email : Option Str := none
  aadhaar_photo_path : Option Str := none
  address : Option Str := none
  department : Option Str := none
  information_sought : Option Str := none
  purpose : Option Str := none
  pdf_path : Option Str := none
deriving DecidableEq

/-- The RTI conversation states (lines 57-67). -/
inductive RState where
  | rAskName
  | rAskPhone
  | rAskOtp
  | rAskEmail
  | rAskAadhaar
  | rAskAddress
  | rAskDept
  | rAskInfo
  | rAskPurpose
deriving DecidableEq

/-- Result of one RTI handler invocation. -/
structure RHRes where
  sess : RSession
  st : Option RState
  reply : Reply
  verifyCalled : Bool := false
  issueCalled : Bool := false
deriving DecidableEq

/-- `rti_start` (lines 608-621). -/
def rti_start (uid : Str) : RSession := { user_id := uid }

/-- `rti_name` (lines 624-627). -/
def rti_name (s : RSession) (t : Str) : RHRes :=
  ⟨{ s with name := some t }, some .rAskPhone, .promptNext, false, false⟩

/-- `rti_phone` (lines 630-647). -/
def rti_phone (s : RSession) (t : Str) (ev : Ev) : RHRes :=
  let s2 := { s with phone := some (normalize_phone_number t) }
  if ev.sendOk then
    ⟨{ s2 with otp_attempts := 0 }, some .rAskOtp, .otpSent, false, true⟩
  else
    ⟨s2, some .rAskPhone, .otpSendFail, false, true⟩

/-- `rti_otp` (lines 650-689): identical retry semantics to `complaint_otp`. -/
def rti_otp (s : RSession) (t : Str) (ev : Ev) : RHRes :=
  if isResendCode t then
    if ev.sendOk then ⟨s, some .rAskOtp, .otpResent, false, true⟩
    else ⟨s, some .rAskOtp, .otpResendFail, false, true⟩
  else
    let attempts := s.otp_attempts + 1
    let s2 := { s with otp_attempts := attempts }
    if ev.verifyOk then ⟨s2, some .rAskEmail, .otpVerified, true, false⟩
    else if 3 ≤ attempts then ⟨s2, none, .otpFailedMax, true, false⟩
    else ⟨s2, some .rAskOtp, .otpIncorrect, true, false⟩

/-- `rti_email` (lines 692-704). -/
def rti_email (s : RSession) (t : Str) : RHRes :=
  let e := pyStrip t
  if pyLower e == kwSkip then ⟨s, some .rAskAadhaar, .promptNext, false, false⟩
  else ⟨{ s with email := some e }, some .rAskAadhaar, .promptNext, false, false⟩

/-- The storage path for an RTI Aadhaar image (lines 744-748). -/
def aadhaarRtiPath (uid ts suffix : Str) : Str :=
  AADHAAR_RTI_DIR ++ slashTxt ++ aadhaarRtiTag ++ uid ++
    underscoreTxt ++ ts ++ dotTxt ++ suffix

/-- `rti_aadhaar` (lines 707-757): same validation as `complaint_aadhaar`. -/
def rti_aadhaar (s : RSession) (m : Msg) (ev : Ev) : RHRes :=
  match m with
  | .text t =>
    if !t.isEmpty then
      if pyLower t == kwCancel then ⟨s, none, .cancelled, false, false⟩
      else ⟨s, some .rAskAadhaar, .aadhaarRejectText, false, false⟩
    else ⟨s, some .rAskAadhaar, .aadhaarRejectOther, false, false⟩
  | .photo =>
    let path := aadhaarRtiPath s.user_id ev.ts jpgTxt
    ⟨{ s with aadhaar_photo_path := some path }, some .rAskAddress, .aadhaarAccepted,
      false, false⟩
  | .doc mime fname =>
    if mime.getD [] |>.isEmpty then
      ⟨s, some .rAskAadhaar, .aadhaarRejectDoc, false, false⟩
    else if !(strStartsWith imageMarker (mime.getD [])) then
      ⟨s, some .rAskAadhaar, .aadhaarRejectDoc, false, false⟩
    else
      let path := aadhaarRtiPath s.user_id ev.ts (docSuffix fname)
      ⟨{ s with aadhaar_photo_path := some path }, some .rAskAddress, .aadhaarAccepted,
        false, false⟩
  | .otherMedia => ⟨s, some .rAskAadhaar, .aadhaarRejectOther, false, false⟩

/-- `rti_address` (lines 760-767). -/
def rti_address (s : RSession) (t : Str) : RHRes :=
  ⟨{ s with address := some t }, some .rAskDept, .promptNext, false, false⟩

/-- `rti_department` (lines 770-777). -/
def rti_department (s : RSession) (t : Str) : RHRes :=
  ⟨{ s with department := some t }, some .rAskInfo, .promptNext, false, false⟩

/-- `rti_info` (lines 780-787). -/
def rti_info (s : RSession) (t : Str) : RHRes :=
  ⟨{ s with information_sought := some t }, some .rAskPurpose, .promptNext, false, false⟩

/-- `rti_purpose` (lines 790-839): optionally store the purpose, then render
and save. -/
def rti_purpose (s : RSession) (t : Str) (ev : Ev) : RHRes :=
  let s2 := if pyLower t == kwSkip then s else { s with purpose := some t }
  match ev.render with
  | none => ⟨s2, none, .finalizeError, false, false⟩
  | some pdfPath =>
    let s3 := { s2 with pdf_path := some pdfPath }
    match ev.saveId with
    | none => ⟨s3, none, .finalizeError, false, false⟩
    | some recId => ⟨s3, none, .finalized recId, false, false⟩

/-- A live RTI conversation. -/
structure RConfig where
  sess : RSession
  st : Option RState
deriving DecidableEq

/-- The configuration `/rti` creates. -/
def rtiStartCfg (uid : Str) : RConfig := ⟨rti_start uid, some .rAskName⟩

/-- RTI dispatch result. -/
structure RDRes where
  cfg : RConfig
  reply : Option Reply
  verifyCalled : Bool
  issueCalled : Bool
deriving DecidableEq

def liftRH (r : RHRes) : RDRes :=
  ⟨⟨r.sess, r.st⟩, some r.reply, r.verifyCalled, r.issueCalled⟩

def noRDispatch (c : RConfig) : RDRes := ⟨c, none, false, false⟩

/-- Route a delivered text message to the handler of the current RTI state
(the `states` table of lines 1189-1203). -/
def rtiTextHandler (st : RState) (s : RSession) (t : Str) (ev : Ev) : RHRes :=
  match st with
  | .rAskName => rti_name s t
  | .rAskPhone => rti_phone s t ev
  | .rAskOtp => rti_otp s t ev
  | .rAskEmail => rti_email s t
  | .rAskAadhaar => rti_aadhaar s (.text t) ev
  | .rAskAddress => rti_address s t
  | .rAskDept => rti_department s t
  | .rAskInfo => rti_info s t
  | .rAskPurpose => rti_purpose s t ev

/-- One inbound event against the RTI conversation. -/
def rtiDispatch (c : RConfig) (ev : Ev) : RDRes :=
  match c.st with
  | none => noRDispatch c
  | some st =>
    match ev.msg with
    | .text t =>
      if strStartsWith slashTxt t then
        if t = cancelCmdTxt then ⟨⟨c.sess, none⟩, some .cancelledCmd, false, false⟩
        else noRDispatch c
      else if t.isEmpty then noRDispatch c
      else liftRH (rtiTextHandler st c.sess t ev)
    | .photo =>
      match st with
      | .rAskAadhaar => liftRH (rti_aadhaar c.sess .photo ev)
      | _ => noRDispatch c
    | .doc mime fname =>
      match st with
      | .rAskAadhaar => liftRH (rti_aadhaar c.sess (.doc mime fname) ev)
      | _ => noRDispatch c
    | .otherMedia => noRDispatch c

/-- One step of the RTI machine. -/
def rtiStep (c : RConfig) (ev : Ev) : RConfig := (rtiDispatch c ev).cfg

/-- Run the RTI machine over a list of events. -/
def runRti : RConfig → List Ev → RConfig
  | c, [] => c
  | c, ev :: evs => runRti (rtiStep c ev) evs

/-! ### Traffic-violation flow: the optional photo step (lines 976-993) -/

/-- The `context.user_data['traffic']` dictionary. -/
structure TSession where
  user_id : Str
  reporter_name : Option Str := none
  reporter_phone : Option Str := none
  otp_attempts : Nat := 0
  vehicle_number : Option Str := none
  violation_type : Option Str := none
  location : Option Str := none
  photo_path : Option Str := none
  description : Option Str := none
deriving DecidableEq

/-- The traffic conversation states (lines 70-79). -/
inductive TState where
  | tAskName
  | tAskPhone
  | tAskOtp
  | tAskVehicle
  | tAskType
  | tAskLocation
  | tAskPhoto
  | tAskDesc
deriving DecidableEq

/-- Result of one traffic handler invocation. -/
structure THRes where
  sess : TSession
  st : Option TState
deriving DecidableEq

/-- The storage path for a traffic photo (lines 981-983). -/
def trafficPhotoPath (uid ts : Str) : Str :=
  TRAFFIC_DIR ++ slashTxt ++ trafficTag ++ uid ++ underscoreTxt ++ ts ++ jpgExtTxt

/-- `traffic_photo` (lines 976-993): a photo payload is stored and its path
recorded; any other delivered message leaves the session untouched; either
way the flow advances to the additional-description step. -/
def traffic_photo (s : TSession) (m : Msg) (ev : Ev) : THRes :=
  match m with
  | .photo =>
    let path := trafficPhotoPath s.user_id ev.ts
    ⟨{ s with photo_path := some path }, some .tAskDesc⟩
  | _ => ⟨s, some .tAskDesc⟩

/-! ### Concrete inputs used in witnesses, counterexamples and invariants -/

/-- An input that starts with `+` but contains an interior space. -/
def cexPlusInput : Str := "+1 2".toList

/-- An input whose cleanup exposes a trailing tab: the hyphen shields the tab
from `strip()`, `replace("-", "")` then removes the hyphen. -/
def cexTabHyphen : Str := ['+', '1', '\t', '-']

/-- The session with an accepted attachment's storage path recorded on it. -/
def withAadhaarPath (s : Session) (p : Str) : Session :=
  { s with aadhaar_photo_path := some p }

def pdfMimeTxt : Str := "application/pdf".toList

def pngMimeTxt : Str := "image/png".toList

def pdfNameTxt : Str := "a.pdf".toList

def pngNameTxt : Str := "a.png".toList

def cancelCapsTxt : Str := "CANCEL".toList

def evDocPdf : Ev := { msg := Msg.doc (some pdfMimeTxt) (some pdfNameTxt) }

def evDocPng : Ev := { msg := Msg.doc (some pngMimeTxt) (some pngNameTxt) }

def evTextCancelCaps : Ev := { msg := Msg.text cancelCapsTxt }

/-- An event whose legal-basis lookup fails while rendering and saving
succeed. -/
def evFinalizeOk : Ev :=
  { msg := Msg.text kwNo, lookup := none, render := some pdfNameTxt, saveId := some 7 }

def theftTxt : Str := "Theft".toList

def spacedFraud : Str := " Fraud ".toList

/-- A session at the category step with a stored AI suggestion. -/
def cexSuggestedSession : Session :=
  { user_id := ['u'], suggested_type := some theftTxt }

def code1 : Str := "111111".toList

def resendCapsTxt : Str := "ReSend".toList

/-- Invariant of the complaint machine: at every state up to and including the
phone step (before the first possible OTP check) the attempt counter is 0. -/
def goodCB (c : CConfig) : Bool :=
  match c.st with
  | some .askName => c.sess.otp_attempts == 0
  | some .askFather => c.sess.otp_attempts == 0
  | some .askAge => c.sess.otp_attempts == 0
  | some .askPhone => c.sess.otp_attempts == 0
  | _ => true

/-- Invariant of the RTI machine: up to and including the phone step the
attempt counter is 0. -/
def goodRB (c : RConfig) : Bool :=
  match c.st with
  | some .rAskName => c.sess.otp_attempts == 0
  | some .rAskPhone => c.sess.otp_attempts == 0
  | _ => true

/-- Events leading a fresh complaint session to the phone step. -/
def demoEvs : List Ev :=
  [{ msg := Msg.text ['a'] }, { msg := Msg.text ['b'] }, { msg := Msg.text ['c'] }]

/-- A phone-number entry whose OTP send fails. -/
def demoPhoneEv : Ev := { msg := Msg.text ['9'], sendOk := false }

/-! ### Sanity checks on the normalizer -/

example : normalize_phone_number "9876543210".toList = "+919876543210".toList := by decide

example : normalize_phone_number "+1 2".toList = "+12".toList := by decide

example : normalize_phone_number "0098765".toList = "+98765".toList := by decide

example : normalize_phone_number ['+', '1', '\t', '-'] = ['+', '1', '\t'] := by decide

example : normalize_phone_number ['+', '1', '\t'] = ['+', '1'] := by decide

/-! ### Character-level facts -/

lemma toNat_ofNat_valid (n : Nat) (h : n < 55296) : (Char.ofNat n).toNat = n := by
  have hv : Nat.isValidChar n := Or.inl h
  simp only [Char.ofNat, dif_pos hv, Char.ofNatAux, Char.toNat]
  simp [UInt32.toNat]

lemma pyIsSpace_pyToLowerChar (c : Char) : pyIsSpace (pyToLowerChar c) = pyIsSpace c := by
  unfold pyToLowerChar
  split
  · rename_i h
    have h1 : (Char.ofNat (c.toNat + 32)).toNat = c.toNat + 32 :=
      toNat_ofNat_valid _ (by omega)
    have h2 : pyIsSpace (Char.ofNat (c.toNat + 32)) = false := by
      simp only [pyIsSpace, h1, Bool.or_eq_false_iff, beq_eq_false_iff_ne, ne_eq]
      omega
    have h3 : pyIsSpace c = false := by
      simp only [pyIsSpace, Bool.or_eq_false_iff, beq_eq_false_iff_ne, ne_eq]
      omega
    rw [h2, h3]
  · rfl

/-! ### Strip and lower lemmas -/

lemma dropWhile_space_eq_self (l : Str) (h : ∀ c, l.head? = some c → pyIsSpace c = false) :
    l.dropWhile pyIsSpace = l := by
  cases l with
  | nil => rfl
  | cons a t =>
    rw [List.dropWhile_cons, if_neg]
    simp [h a rfl]

lemma stripTrailing_eq_self (l : Str) (h : ∀ c, l.getLast? = some c → pyIsSpace c = false) :
    stripTrailing l = l := by
  unfold stripTrailing
  rw [dropWhile_space_eq_self, List.reverse_reverse]
  intro c hc
  exact h c (by rwa [List.head?_reverse] at hc)

lemma pyLower_getLast? (t : Str) : (pyLower t).getLast? = t.getLast?.map pyToLowerChar := by
  rw [← List.head?_reverse, ← List.head?_reverse, pyLower, ← List.map_reverse,
    List.head?_map]

lemma pyStrip_eq_self_of_lower {t w : Str} (hl : pyLower t = w)
    (hh : ∀ c, w.head? = some c → pyIsSpace c = false)
    (hg : ∀ c, w.getLast? = some c → pyIsSpace c = false) :
    pyStrip t = t := by
  have h1 : stripLeading t = t := by
    apply dropWhile_space_eq_self
    intro c hc
    have hw : w.head? = some (pyToLowerChar c) := by
      rw [← hl, pyLower, List.head?_map, hc, Option.map_some']
    have := hh _ hw
    rwa [pyIsSpace_pyToLowerChar] at this
  have h2 : stripTrailing t = t := by
    apply stripTrailing_eq_self
    intro c hc
    have hw : w.getLast? = some (pyToLowerChar c) := by
      rw [← hl, pyLower_getLast?, hc, Option.map_some']
    have := hg _ hw
    rwa [pyIsSpace_pyToLowerChar] at this
  unfold pyStrip
  rw [h1, h2]

lemma stripTrailing_cons_of_not_space {c : Char} (hc : pyIsSpace c = false) (r : Str) :
    stripTrailing (c :: r) = c :: stripTrailing r := by
  unfold stripTrailing
  rw [List.reverse_cons, List.dropWhile_append]
  split
  · rename_i h
    have h0 : r.reverse.dropWhile pyIsSpace = [] := by
      simpa [List.isEmpty_iff] using h
    rw [List.dropWhile_cons, if_neg (by simp [hc])]
    simp [h0]
  · simp

lemma dropWhile_space_idem (l : Str) :
    (l.dropWhile pyIsSpace).dropWhile pyIsSpace = l.dropWhile pyIsSpace := by
  induction l with
  | nil => rfl
  | cons a t ih =>
    rw [List.dropWhile_cons]
    split
    · exact ih
    · rename_i h
      rw [List.dropWhile_cons, if_neg h]

lemma stripTrailing_idem (l : Str) : stripTrailing (stripTrailing l) = stripTrailing l := by
  unfold stripTrailing
  rw [List.reverse_reverse, dropWhile_space_idem]

lemma mem_stripTrailing {c : Char} {l : Str} (h : c ∈ stripTrailing l) : c ∈ l := by
  unfold stripTrailing at h
  rw [List.mem_reverse] at h
  have h2 := (List.dropWhile_sublist (l := l.reverse) pyIsSpace).mem h
  exact List.mem_reverse.mp h2

lemma mem_removeChar {a c : Char} {l : Str} (h : a ∈ removeChar c l) : a ∈ l ∧ a ≠ c := by
  unfold removeChar at h
  have h2 := List.mem_filter.mp h
  refine ⟨h2.1, ?_⟩
  simpa using h2.2

/-! ### Facts about the phone normalizer -/

lemma strStartsWith_plus_iff (s : Str) :
    strStartsWith plusTxt s = true ↔ ∃ r, s = '+' :: r := by
  cases s with
  | nil => simp [strStartsWith, plusTxt]
  | cons a r =>
    constructor
    · intro h
      have : a = '+' := by
        simpa [strStartsWith, plusTxt, List.take] using h
      exact ⟨r, by rw [this]⟩
    · rintro ⟨r2, hr⟩
      cases hr
      simp [strStartsWith, plusTxt, List.take]

lemma cleanedPhone_cons_plus (r : Str) :
    cleanedPhone ('+' :: r) =
      '+' :: removeChar '-' (removeChar ' ' (stripTrailing r)) := by
  unfold cleanedPhone pyStrip
  have h1 : stripLeading ('+' :: r) = '+' :: r := by
    unfold stripLeading
    rw [List.dropWhile_cons, if_neg (by decide)]
  rw [h1, stripTrailing_cons_of_not_space (by decide)]
  unfold removeChar
  rw [List.filter_cons_of_pos (by decide), List.filter_cons_of_pos (by decide)]

lemma plusTail_shape (p : Str) : ∃ r, plusTail p = '+' :: r := by
  unfold plusTail
  split
  · exact ⟨'9' :: '1' :: p, rfl⟩
  · split
    · exact ⟨p, rfl⟩
    · rename_i h2
      have h3 : strStartsWith plusTxt p = true := by
        revert h2
        cases strStartsWith plusTxt p <;> simp
      obtain ⟨r, hr⟩ := (strStartsWith_plus_iff p).mp h3
      exact ⟨r, hr⟩

lemma normalize_shape (x : Str) : ∃ r, normalize_phone_number x = '+' :: r := by
  unfold normalize_phone_number
  split
  · rename_i h
    exact (strStartsWith_plus_iff _).mp h
  · exact plusTail_shape _

lemma mem_plusTail {c : Char} {p : Str} (h : c ∈ plusTail p) :
    c ∈ p ∨ c = '+' ∨ c = '9' ∨ c = '1' := by
  unfold plusTail at h
  split at h
  · rcases List.mem_append.mp h with h2 | h2
    · simp only [ccTxt, List.mem_cons, List.not_mem_nil, or_false] at h2
      tauto
    · exact Or.inl h2
  · split at h
    · rcases List.mem_cons.mp h with h2 | h2
      · tauto
      · exact Or.inl h2
    · exact Or.inl h

lemma mem_dropLeadZeros {c : Char} {p : Str} (h : c ∈ dropLeadZeros p) : c ∈ p := by
  unfold dropLeadZeros dropOneZero dropTwoZeros at h
  split at h <;> split at h <;>
    first
      | exact List.drop_subset _ _ (List.drop_subset _ _ h)
      | exact List.drop_subset _ _ h
      | exact h

lemma mem_cleanedPhone {c : Char} {x : Str} (h : c ∈ cleanedPhone x) :
    c ≠ ' ' ∧ c ≠ '-' := by
  unfold cleanedPhone at h
  obtain ⟨h1, hd⟩ := mem_removeChar h
  obtain ⟨_, hs⟩ := mem_removeChar h1
  exact ⟨hs, hd⟩

lemma normalize_no_space_hyphen (x : Str) :
    ∀ c ∈ normalize_phone_number x, c ≠ ' ' ∧ c ≠ '-' := by
  intro c hc
  unfold normalize_phone_number at hc
  split at hc
  · exact mem_cleanedPhone hc
  · rcases mem_plusTail hc with h | h | h | h
    · exact mem_cleanedPhone (mem_dropLeadZeros h)
    · subst h; exact ⟨by decide, by decide⟩
    · subst h; exact ⟨by decide, by decide⟩
    · subst h; exact ⟨by decide, by decide⟩

lemma cleanedPhone_of_plus_clean {r : Str} (hs : ∀ c ∈ '+' :: r, c ≠ ' ' ∧ c ≠ '-') :
    cleanedPhone ('+' :: r) = '+' :: stripTrailing r := by
  rw [cleanedPhone_cons_plus]
  have hm : ∀ c ∈ stripTrailing r, c ≠ ' ' ∧ c ≠ '-' := by
    intro c hc
    exact hs c (List.mem_cons_of_mem _ (mem_stripTrailing hc))
  have h1 : removeChar ' ' (stripTrailing r) = stripTrailing r := by
    unfold removeChar
    apply List.filter_eq_self.mpr
    intro a ha
    simpa using (hm a ha).1
  have h2 : removeChar '-' (stripTrailing r) = stripTrailing r := by
    unfold removeChar
    apply List.filter_eq_self.mpr
    intro a ha
    simpa using (hm a ha).2
  rw [h1, h2]

lemma normalize_of_plus_clean {r : Str} (hs : ∀ c ∈ '+' :: r, c ≠ ' ' ∧ c ≠ '-') :
    normalize_phone_number ('+' :: r) = '+' :: stripTrailing r := by
  unfold normalize_phone_number
  rw [cleanedPhone_of_plus_clean hs,
    if_pos ((strStartsWith_plus_iff _).mpr ⟨stripTrailing r, rfl⟩)]

/-! ### Keyword helper lemmas -/

lemma strip_self_of_lower_eq {t w : Str} (h : pyLower t = w)
    (hw : (match w.head? with | some c => !pyIsSpace c | none => true) = true)
    (hg : (match w.getLast? with | some c => !pyIsSpace c | none => true) = true) :
    pyStrip t = t := by
  apply pyStrip_eq_self_of_lower h
  · intro c hc
    rw [hc] at hw
    simpa using hw
  · intro c hc
    rw [hc] at hg
    simpa using hg

lemma lower_head {a : Char} {r w : Str} (h : pyLower (a :: r) = w) :
    w.head? = some (pyToLowerChar a) := by
  rw [← h]
  rfl

lemma lower_ne_nil {t w : Str} (h : pyLower t = w) (hw : w ≠ []) : t ≠ [] := by
  intro hn
  subst hn
  exact hw (by rw [← h]; rfl)

lemma not_slash_of_lower_head {t w : Str} (h : pyLower t = w)
    (hw : w.head? ≠ some '/') : strStartsWith slashTxt t = false := by
  cases t with
  | nil => rfl
  | cons a r =>
    have ha : pyToLowerChar a ≠ '/' := by
      intro he
      exact hw (by rw [lower_head h, he])
    have ha2 : a ≠ '/' := by
      intro he
      subst he
      exact ha (by decide)
    simp [strStartsWith, slashTxt, List.take, ha2]

lemma resend_facts {t : Str} (h : pyLower t = kwResend) :
    t.isEmpty = false ∧ strStartsWith slashTxt t = false ∧ isResendCode t = true := by
  have hs : pyStrip t = t := strip_self_of_lower_eq h (by decide) (by decide)
  refine ⟨?_, ?_, ?_⟩
  · cases t with
    | nil => exact absurd h (by decide)
    | cons a r => rfl
  · exact not_slash_of_lower_head h (by decide)
  · unfold isResendCode
    rw [hs, h]
    decide

lemma yes_contains_strip {t : Str} (h : yesWords.contains (pyLower t) = true) :
    pyStrip t = t := by
  obtain ⟨w, hw, hb⟩ := List.contains_iff_exists_mem_beq.mp h
  have he : pyLower t = w := by simpa using hb
  simp only [yesWords, List.mem_cons, List.not_mem_nil, or_false] at hw
  rcases hw with rfl | rfl | rfl | rfl <;>
    exact strip_self_of_lower_eq he (by decide) (by decide)

lemma textOk_parts {t : Str} (h : textOk t = true) :
    t.isEmpty = false ∧ strStartsWith slashTxt t = false := by
  unfold textOk at h
  rcases Bool.and_eq_true_iff.mp h with ⟨h1, h2⟩
  exact ⟨by simpa using h1, by simpa using h2⟩

lemma isEmpty_false_of_image {m : Str} (h : strStartsWith imageMarker m = true) :
    m.isEmpty = false := by
  cases m with
  | nil => exact absurd h (by decide)
  | cons a r => rfl

/-! ### OTP dispatch step lemmas (for C1 and C3) -/

lemma dispatch_otp_wrong (s : Session) (t : Str) (h1 : t.isEmpty = false)
    (h2 : strStartsWith slashTxt t = false) (h3 : isResendCode t = false)
    (hlt : s.otp_attempts + 1 < 3) :
    complaintDispatch ⟨s, some .askOtp⟩ (mkCodeEv t false) =
      ⟨⟨{ s with otp_attempts := s.otp_attempts + 1 }, some .askOtp⟩,
        some .otpIncorrect, true, false⟩ := by
  have hn : ¬ 3 ≤ s.otp_attempts + 1 := by omega
  simp [complaintDispatch, mkCodeEv, complaintTextHandler, complaint_otp, liftH,
    h1, h2, h3, hn]

lemma dispatch_otp_final (s : Session) (t : Str) (h1 : t.isEmpty = false)
    (h2 : strStartsWith slashTxt t = false) (h3 : isResendCode t = false)
    (hge : 3 ≤ s.otp_attempts + 1) :
    complaintDispatch ⟨s, some .askOtp⟩ (mkCodeEv t false) =
      ⟨⟨{ s with otp_attempts := s.otp_attempts + 1 }, none⟩,
        some .otpFailedMax, true, false⟩ := by
  simp [complaintDispatch, mkCodeEv, complaintTextHandler, complaint_otp, liftH,
    h1, h2, h3, hge]

lemma dispatch_otp_right (s : Session) (t : Str) (h1 : t.isEmpty = false)
    (h2 : strStartsWith slashTxt t = false) (h3 : isResendCode t = false) :
    complaintDispatch ⟨s, some .askOtp⟩ (mkCodeEv t true) =
      ⟨⟨{ s with otp_attempts := s.otp_attempts + 1 }, some .askEmail⟩,
        some .otpVerified, true, false⟩ := by
  simp [complaintDispatch, mkCodeEv, complaintTextHandler, complaint_otp, liftH,
    h1, h2, h3]

lemma dispatch_otp_resend (s : Session) (t : Str) (b : Bool)
    (h : pyLower t = kwResend) :
    complaintDispatch ⟨s, some .askOtp⟩ (mkResendEv t b) =
      ⟨⟨s, some .askOtp⟩, some (if b then .otpResent else .otpResendFail),
        false, true⟩ := by
  obtain ⟨h1, h2, h3⟩ := resend_facts h
  cases b <;>
    simp [complaintDispatch, mkResendEv, complaintTextHandler, complaint_otp, liftH,
      h1, h2, h3]

lemma dispatch_ended (s : Session) (ev : Ev) :
    complaintDispatch ⟨s, none⟩ ev = ⟨⟨s, none⟩, none, false, false⟩ := rfl

lemma step_otp_resend (s : Session) (t : Str) (b : Bool) (h : pyLower t = kwResend) :
    complaintStep ⟨s, some .askOtp⟩ (mkResendEv t b) = ⟨s, some .askOtp⟩ := by
  unfold complaintStep
  rw [dispatch_otp_resend s t b h]

lemma step_otp_wrong (s : Session) (t : Str) (h1 : t.isEmpty = false)
    (h2 : strStartsWith slashTxt t = false) (h3 : isResendCode t = false)
    (hlt : s.otp_attempts + 1 < 3) :
    complaintStep ⟨s, some .askOtp⟩ (mkCodeEv t false) =
      ⟨{ s with otp_attempts := s.otp_attempts + 1 }, some .askOtp⟩ := by
  unfold complaintStep
  rw [dispatch_otp_wrong s t h1 h2 h3 hlt]

/-! ### Claim C6: inputs already starting with `+` -/

/-- C6 counterexample: `normalize_phone_number` on an input starting with `+`
does not return the input verbatim when the input contains a space, because the
strip/replace cleanup runs before the leading-plus check (lines 87-89). -/
theorem plus_input_not_verbatim_cex :
    strStartsWith plusTxt cexPlusInput = true ∧
      normalize_phone_number cexPlusInput ≠ cexPlusInput := by
  constructor
  · decide
  · decide

/-- C6 (amended): for any input starting with `+`, the output is the input with
surrounding whitespace stripped and all spaces and hyphens removed (hence
verbatim exactly when that cleanup removes nothing). -/
theorem plus_input_returns_cleaned (x : Str) (h : strStartsWith plusTxt x = true) :
    normalize_phone_number x = cleanedPhone x := by
  obtain ⟨r, hr⟩ := (strStartsWith_plus_iff x).mp h
  subst hr
  unfold normalize_phone_number
  rw [cleanedPhone_cons_plus,
    if_pos ((strStartsWith_plus_iff _).mpr ⟨_, rfl⟩), ← cleanedPhone_cons_plus]

/-- Witness for C6 (amended) at the concrete input `"+1 2"`. -/
theorem plus_input_returns_cleaned_witness :
    strStartsWith plusTxt cexPlusInput = true ∧
      normalize_phone_number cexPlusInput = cleanedPhone cexPlusInput :=
  ⟨by decide, plus_input_returns_cleaned cexPlusInput (by decide)⟩

/-! ### Claim C7: idempotence of the normalizer -/

/-- C7 counterexample: the normalizer is not idempotent; normalizing
`"+1\t-"` yields `"+1\t"`, and normalizing that strips the newly trailing tab,
yielding `"+1"`. -/
theorem normalize_not_idempotent_cex :
    normalize_phone_number (normalize_phone_number cexTabHyphen) ≠
      normalize_phone_number cexTabHyphen := by
  decide

/-- C7 (amended): the normalizer stabilizes after two applications; plain
idempotence fails only where removing spaces/hyphens exposes trailing
whitespace, and one further pass strips it, after which the result is a fixed
point. -/
theorem normalize_twice_idempotent (x : Str) :
    normalize_phone_number (normalize_phone_number (normalize_phone_number x)) =
      normalize_phone_number (normalize_phone_number x) := by
  obtain ⟨r, hr⟩ := normalize_shape x
  have hm : ∀ c ∈ '+' :: r, c ≠ ' ' ∧ c ≠ '-' := by
    rw [← hr]
    exact normalize_no_space_hyphen x
  rw [hr, normalize_of_plus_clean hm]
  have hm2 : ∀ c ∈ '+' :: stripTrailing r, c ≠ ' ' ∧ c ≠ '-' := by
    intro c hc
    rcases List.mem_cons.mp hc with h2 | h2
    · exact hm c (by rw [h2]; exact List.mem_cons_self _ _)
    · exact hm c (List.mem_cons_of_mem _ (mem_stripTrailing h2))
  rw [normalize_of_plus_clean hm2, stripTrailing_idem]

/-! ### Claim C4: the mandatory Aadhaar attachment step -/

/-- C4: at the attachment step a direct photo is accepted and its storage path
recorded; a document is accepted (path recorded) exactly when its declared
mime type starts with `image/`, otherwise rejected with a re-prompt and no
session change; text equal (case-insensitively) to the cancellation keyword
ends the session; any other text is rejected with a re-prompt and no session
change. -/
theorem aadhaar_capture_validation (s : Session) (ev : Ev) :
    (∀ t, t.isEmpty = false → pyLower t = kwCancel →
      complaint_aadhaar s (.text t) ev = ⟨s, none, .cancelled, false, false⟩) ∧
    (∀ t, t.isEmpty = false → pyLower t ≠ kwCancel →
      complaint_aadhaar s (.text t) ev =
        ⟨s, some .askAadhaar, .aadhaarRejectText, false, false⟩) ∧
    ((complaint_aadhaar s .photo ev).st = some .askAddress ∧
      (complaint_aadhaar s .photo ev).sess =
        withAadhaarPath s (aadhaarComplaintPath s.user_id ev.ts jpgTxt)) ∧
    (∀ mime fname, strStartsWith imageMarker (mime.getD []) = true →
      (complaint_aadhaar s (.doc mime fname) ev).st = some .askAddress ∧
      (complaint_aadhaar s (.doc mime fname) ev).sess =
        withAadhaarPath s (aadhaarComplaintPath s.user_id ev.ts (docSuffix fname))) ∧
    (∀ mime fname, strStartsWith imageMarker (mime.getD []) = false →
      complaint_aadhaar s (.doc mime fname) ev =
        ⟨s, some .askAadhaar, .aadhaarRejectDoc, false, false⟩) := by
  refine ⟨?_, ?_, ⟨rfl, rfl⟩, ?_, ?_⟩
  · intro t h1 h2
    simp [complaint_aadhaar, h1, h2]
  · intro t h1 h2
    simp [complaint_aadhaar, h1, h2]
  · intro mime fname h
    have h2 := isEmpty_false_of_image h
    simp [complaint_aadhaar, h, h2, withAadhaarPath]
  · intro mime fname h
    by_cases h2 : (mime.getD []).isEmpty = true
    · simp [complaint_aadhaar, h2]
    · simp [complaint_aadhaar, h, h2]

/-- Witness for C4 at concrete inputs: an `application/pdf` document is
rejected, an `image/png` document is accepted, and `"CANCEL"` terminates. -/
theorem aadhaar_capture_validation_witness :
    (complaint_aadhaar (complaint_start ['u']) (.doc (some pdfMimeTxt) (some pdfNameTxt))
        evDocPdf =
      ⟨complaint_start ['u'], some .askAadhaar, .aadhaarRejectDoc, false, false⟩) ∧
    ((complaint_aadhaar (complaint_start ['u']) (.doc (some pngMimeTxt) (some pngNameTxt))
        evDocPng).st = some .askAddress) ∧
    ((complaint_aadhaar (complaint_start ['u']) (.text cancelCapsTxt)
        evTextCancelCaps).st = none) := by
  refine ⟨?_, ?_, ?_⟩
  · exact (aadhaar_capture_validation (complaint_start ['u']) evDocPdf).2.2.2.2
      (some pdfMimeTxt) (some pdfNameTxt) (by decide)
  · exact ((aadhaar_capture_validation (complaint_start ['u']) evDocPng).2.2.2.1
      (some pngMimeTxt) (some pngNameTxt) (by decide)).1
  · rw [(aadhaar_capture_validation (complaint_start ['u']) evTextCancelCaps).1
      cancelCapsTxt (by decide) (by decide)]

/-! ### Claim C5: legal-basis lookup failure degrades gracefully -/

/-- C5: if the applicable-legal-basis lookup fails, record assembly still
proceeds — the assembled record carries an empty legal-basis field — and, when
rendering and saving succeed, finalization completes with a record id rather
than aborting. -/
theorem finalize_laws_lookup_degrades :
    (∀ (s : Session) (t : Str) (ev : Ev), ev.lookup = none →
      (complaint_description s t ev).sess.applicable_laws = some []) ∧
    (∀ (s : Session) (t : Str) (ev : Ev) (p : Str) (rid : Nat),
      ev.lookup = none → ev.render = some p → ev.saveId = some rid →
      (complaint_description s t ev).reply = .finalized rid ∧
      (complaint_description s t ev).st = none ∧
      (complaint_description s t ev).sess.pdf_path = some p) := by
  constructor
  · intro s t ev hl
    unfold complaint_description get_applicable_laws
    rw [hl]
    cases hr : ev.render with
    | none => simp
    | some p =>
      cases hs : ev.saveId with
      | none => simp
      | some rid => simp
  · intro s t ev p rid hl hr hs
    unfold complaint_description get_applicable_laws
    rw [hl, hr, hs]
    simp

/-- Witness for C5 at a concrete failing lookup with successful render and
save. -/
theorem finalize_laws_lookup_degrades_witness :
    (complaint_description (complaint_start ['u']) kwNo
        evFinalizeOk).sess.applicable_laws = some [] ∧
    (complaint_description (complaint_start ['u']) kwNo
        evFinalizeOk).reply = .finalized 7 :=
  ⟨finalize_laws_lookup_degrades.1 (complaint_start ['u']) kwNo evFinalizeOk rfl,
    (finalize_laws_lookup_degrades.2 (complaint_start ['u']) kwNo evFinalizeOk
      pdfNameTxt 7 rfl rfl rfl).1⟩

/-! ### Claim C8: category confirmation with a stored suggestion -/

/-- C8 counterexample: the reply `" Fraud "` is neither a confirmation word
nor `skip`, yet it is not stored verbatim — `complaint_type` strips it first
(line 504). -/
theorem category_not_verbatim_cex :
    yesWords.contains (pyLower spacedFraud) = false ∧
    pyLower spacedFraud ≠ kwSkip ∧
    (complaint_type cexSuggestedSession spacedFraud).sess.complaint_type ≠
      some spacedFraud := by
  refine ⟨by decide, by decide, by decide⟩

/-- C8 (amended): replies are stripped of surrounding whitespace before keyword
matching; a stripped reply whose lowercase form is a confirmation word stores
the stored suggestion, `skip` stores the generic category, and any other reply
is stored as its stripped form (verbatim when it has no surrounding
whitespace). -/
theorem category_branch_stripped (s : Session) (t g : Str)
    (hg : s.suggested_type = some g) :
    (yesWords.contains (pyLower (pyStrip t)) = true →
      (complaint_type s t).sess.complaint_type = some g) ∧
    (pyLower (pyStrip t) = kwSkip →
      (complaint_type s t).sess.complaint_type = some kwGeneral) ∧
    (yesWords.contains (pyLower (pyStrip t)) = false → pyLower (pyStrip t) ≠ kwSkip →
      (complaint_type s t).sess.complaint_type = some (pyStrip t)) := by
  refine ⟨?_, ?_, ?_⟩
  · intro h
    simp only [complaint_type]
    rw [if_pos h, hg]
    rfl
  · intro h
    have h2 : yesWords.contains (pyLower (pyStrip t)) = false := by
      rw [h]
      decide
    simp only [complaint_type]
    rw [if_neg (by rw [h2]; exact Bool.false_ne_true), if_pos (by rw [h]; decide)]
  · intro h1 h2
    simp only [complaint_type]
    rw [if_neg (by rw [h1]; exact Bool.false_ne_true), if_neg (by simp [h2])]

/-- Witness for C8 (amended) at the concrete reply `" Fraud "` with stored
suggestion `"Theft"`. -/
theorem category_branch_stripped_witness :
    (complaint_type cexSuggestedSession spacedFraud).sess.complaint_type =
      some (pyStrip spacedFraud) :=
  (category_branch_stripped cexSuggestedSession spacedFraud theftTxt rfl).2.2
    (by decide) (by decide)

/-! ### Claim C9: any text skips the optional traffic photo -/

/-- C9: at the traffic photo step every text input — whatever its content —
advances to the additional-description step, records no photo path and leaves
the session exactly unchanged (the text is discarded). -/
theorem traffic_photo_text_skips (s : TSession) (t : Str) (ev : Ev) :
    traffic_photo s (.text t) ev = ⟨s, some .tAskDesc⟩ := rfl

/-! ### Claim C10: confirmation words with no stored suggestion -/

/-- C10: at the category step with no stored AI suggestion, a reply whose
lowercase form is `yes`, `correct`, `ok` or `y` is stored itself, literally, as
the complaint category, and the flow advances to the date step. -/
theorem category_yes_without_suggestion (s : Session) (t : Str)
    (hs : s.suggested_type = none)
    (h : yesWords.contains (pyLower t) = true) :
    (complaint_type s t).sess.complaint_type = some t ∧
    (complaint_type s t).st = some .askDate := by
  have hstrip : pyStrip t = t := yes_contains_strip h
  constructor
  · simp only [complaint_type, hstrip]
    rw [if_pos h, hs]
    rfl
  · rfl

/-- Witness for C10 at the concrete reply `"YES"`. -/
theorem category_yes_without_suggestion_witness :
    (complaint_type (complaint_start ['u']) ("YES".toList)).sess.complaint_type =
      some ("YES".toList) :=
  (category_yes_without_suggestion (complaint_start ['u']) ("YES".toList) rfl
    (by decide)).1

/-! ### Claim C1: the OTP verification gate -/

/-- C1: at the OTP step any non-`resend` input first increments the attempt
counter and then evaluates the check; a correct code advances to the email step
with the verified acknowledgment — also as the third submission after two
incorrect ones — while an incorrect code re-prompts at the OTP step while the
counter is below 3 and ends the conversation once it reaches 3; over four
incorrect submissions only three checks are ever evaluated. -/
theorem otp_gate_retry_bound :
    (∀ (s : Session) (t : Str) (ev : Ev), isResendCode t = false →
      (complaint_otp s t ev).sess.otp_attempts = s.otp_attempts + 1 ∧
      (complaint_otp s t ev).verifyCalled = true ∧
      (ev.verifyOk = true →
        (complaint_otp s t ev).st = some .askEmail ∧
        (complaint_otp s t ev).reply = .otpVerified) ∧
      (ev.verifyOk = false → s.otp_attempts + 1 < 3 →
        (complaint_otp s t ev).st = some .askOtp ∧
        (complaint_otp s t ev).reply = .otpIncorrect) ∧
      (ev.verifyOk = false → 3 ≤ s.otp_attempts + 1 →
        (complaint_otp s t ev).st = none ∧
        (complaint_otp s t ev).reply = .otpFailedMax)) ∧
    (∀ (s : Session) (t1 t2 t3 : Str),
      s.otp_attempts = 0 →
      textOk t1 = true → isResendCode t1 = false →
      textOk t2 = true → isResendCode t2 = false →
      textOk t3 = true → isResendCode t3 = false →
      (runComplaintChecks ⟨s, some .askOtp⟩
          [mkCodeEv t1 false, mkCodeEv t2 false, mkCodeEv t3 true]).1.st =
        some .askEmail ∧
      (runComplaintChecks ⟨s, some .askOtp⟩
          [mkCodeEv t1 false, mkCodeEv t2 false, mkCodeEv t3 true]).1.sess.otp_attempts =
        3 ∧
      (runComplaintChecks ⟨s, some .askOtp⟩
          [mkCodeEv t1 false, mkCodeEv t2 false, mkCodeEv t3 true]).2 = 3) ∧
    (∀ (s : Session) (t1 t2 t3 t4 : Str),
      s.otp_attempts = 0 →
      textOk t1 = true → isResendCode t1 = false →
      textOk t2 = true → isResendCode t2 = false →
      textOk t3 = true → isResendCode t3 = false →
      textOk t4 = true → isResendCode t4 = false →
      (runComplaintChecks ⟨s, some .askOtp⟩
          [mkCodeEv t1 false, mkCodeEv t2 false, mkCodeEv t3 false,
            mkCodeEv t4 false]).1.st = none ∧
      (runComplaintChecks ⟨s, some .askOtp⟩
          [mkCodeEv t1 false, mkCodeEv t2 false, mkCodeEv t3 false,
            mkCodeEv t4 false]).1.sess.otp_attempts = 3 ∧
      (runComplaintChecks ⟨s, some .askOtp⟩
          [mkCodeEv t1 false, mkCodeEv t2 false, mkCodeEv t3 false,
            mkCodeEv t4 false]).2 = 3) := by
  refine ⟨?_, ?_, ?_⟩
  · intro s t ev h
    unfold complaint_otp
    rw [if_neg (by rw [h]; exact Bool.false_ne_true)]
    cases hb : ev.verifyOk with
    | false =>
      rw [if_neg Bool.false_ne_true]
      by_cases hc : 3 ≤ s.otp_attempts + 1
      · rw [if_pos hc]
        refine ⟨rfl, rfl, ?_, ?_, ?_⟩
        · intro hv
          simp at hv
        · intro _ hlt
          exact absurd hc (by omega)
        · intro _ _
          exact ⟨rfl, rfl⟩
      · rw [if_neg hc]
        refine ⟨rfl, rfl, ?_, ?_, ?_⟩
        · intro hv
          simp at hv
        · intro _ _
          exact ⟨rfl, rfl⟩
        · intro _ hge
          exact absurd hge hc
    | true =>
      rw [if_pos rfl]
      refine ⟨rfl, rfl, fun _ => ⟨rfl, rfl⟩, ?_, ?_⟩
      · intro hv
        simp at hv
      · intro hv
        simp at hv
  · intro s t1 t2 t3 h0 a1 b1 a2 b2 a3 b3
    obtain ⟨e1, s1⟩ := textOk_parts a1
    obtain ⟨e2, s2⟩ := textOk_parts a2
    obtain ⟨e3, s3⟩ := textOk_parts a3
    have d1 := dispatch_otp_wrong s t1 e1 s1 b1 (by omega)
    have d2 := dispatch_otp_wrong { s with otp_attempts := s.otp_attempts + 1 }
      t2 e2 s2 b2 (by show s.otp_attempts + 1 + 1 < 3; omega)
    have d3 := dispatch_otp_right
      { s with otp_attempts := s.otp_attempts + 1 + 1 } t3 e3 s3 b3
    have hrun : runComplaintChecks ⟨s, some CState.askOtp⟩
        [mkCodeEv t1 false, mkCodeEv t2 false, mkCodeEv t3 true] =
        (⟨{ s with otp_attempts := s.otp_attempts + 1 + 1 + 1 }, some .askEmail⟩, 3) := by
      simp [runComplaintChecks, d1, d2, d3]
    rw [hrun]
    refine ⟨rfl, ?_, rfl⟩
    show s.otp_attempts + 1 + 1 + 1 = 3
    omega
  · intro s t1 t2 t3 t4 h0 a1 b1 a2 b2 a3 b3 a4 b4
    obtain ⟨e1, s1⟩ := textOk_parts a1
    obtain ⟨e2, s2⟩ := textOk_parts a2
    obtain ⟨e3, s3⟩ := textOk_parts a3
    have d1 := dispatch_otp_wrong s t1 e1 s1 b1 (by omega)
    have d2 := dispatch_otp_wrong { s with otp_attempts := s.otp_attempts + 1 }
      t2 e2 s2 b2 (by show s.otp_attempts + 1 + 1 < 3; omega)
    have d3 := dispatch_otp_final
      { s with otp_attempts := s.otp_attempts + 1 + 1 } t3 e3 s3 b3
      (by show 3 ≤ s.otp_attempts + 1 + 1 + 1; omega)
    have hrun : runComplaintChecks ⟨s, some CState.askOtp⟩
        [mkCodeEv t1 false, mkCodeEv t2 false, mkCodeEv t3 false, mkCodeEv t4 false] =
        (⟨{ s with otp_attempts := s.otp_attempts + 1 + 1 + 1 }, none⟩, 3) := by
      simp [runComplaintChecks, d1, d2, d3, dispatch_ended]
    rw [hrun]
    refine ⟨rfl, ?_, rfl⟩
    show s.otp_attempts + 1 + 1 + 1 = 3
    omega

/-- Witness for C1: three wrong submissions of `"111111"` terminate the
conversation with exactly three checks evaluated, and a fourth submission is
not checked. -/
theorem otp_gate_retry_bound_witness :
    (runComplaintChecks ⟨complaint_start ['u'], some .askOtp⟩
        [mkCodeEv code1 false, mkCodeEv code1 false, mkCodeEv code1 false,
          mkCodeEv code1 false]).1.st = none ∧
    (runComplaintChecks ⟨complaint_start ['u'], some .askOtp⟩
        [mkCodeEv code1 false, mkCodeEv code1 false, mkCodeEv code1 false,
          mkCodeEv code1 false]).2 = 3 :=
  ⟨(otp_gate_retry_bound.2.2 (complaint_start ['u']) code1 code1 code1 code1 rfl
      (by decide) (by decide) (by decide) (by decide) (by decide) (by decide)
      (by decide) (by decide)).1,
    (otp_gate_retry_bound.2.2 (complaint_start ['u']) code1 code1 code1 code1 rfl
      (by decide) (by decide) (by decide) (by decide) (by decide) (by decide)
      (by decide) (by decide)).2.2⟩

/-! ### Claim C3: `resend` is a frame action -/

/-- C3: a `resend` submission (any letter case) re-invokes the issue operation
and re-prompts, leaving the session — in particular the attempt counter — and
the step unchanged; five `resend` submissions followed by one incorrect code
leave the conversation alive at the OTP step with exactly one attempt
recorded. -/
theorem otp_resend_frame :
    (∀ (s : Session) (t : Str) (ev : Ev), pyLower t = kwResend →
      (complaint_otp s t ev).sess = s ∧
      (complaint_otp s t ev).st = some .askOtp ∧
      (complaint_otp s t ev).issueCalled = true ∧
      (complaint_otp s t ev).verifyCalled = false) ∧
    (∀ (s : Session) (r1 r2 r3 r4 r5 w : Str) (b1 b2 b3 b4 b5 : Bool),
      s.otp_attempts = 0 →
      pyLower r1 = kwResend → pyLower r2 = kwResend → pyLower r3 = kwResend →
      pyLower r4 = kwResend → pyLower r5 = kwResend →
      textOk w = true → isResendCode w = false →
      (runComplaint ⟨s, some .askOtp⟩
          [mkResendEv r1 b1, mkResendEv r2 b2, mkResendEv r3 b3, mkResendEv r4 b4,
            mkResendEv r5 b5, mkCodeEv w false]).st = some .askOtp ∧
      (runComplaint ⟨s, some .askOtp⟩
          [mkResendEv r1 b1, mkResendEv r2 b2, mkResendEv r3 b3, mkResendEv r4 b4,
            mkResendEv r5 b5, mkCodeEv w false]).sess.otp_attempts = 1) := by
  constructor
  · intro s t ev h
    have h3 := (resend_facts h).2.2
    unfold complaint_otp
    rw [if_pos h3]
    cases hb : ev.sendOk
    · rw [if_neg Bool.false_ne_true]
      exact ⟨rfl, rfl, rfl, rfl⟩
    · rw [if_pos rfl]
      exact ⟨rfl, rfl, rfl, rfl⟩
  · intro s r1 r2 r3 r4 r5 w b1 b2 b3 b4 b5 h0 h1 h2 h3 h4 h5 hw hr
    obtain ⟨ew, sw⟩ := textOk_parts hw
    have dw := step_otp_wrong s w ew sw hr (by omega)
    simp only [runComplaint, step_otp_resend s r1 b1 h1, step_otp_resend s r2 b2 h2,
      step_otp_resend s r3 b3 h3, step_otp_resend s r4 b4 h4,
      step_otp_resend s r5 b5 h5, dw]
    exact ⟨trivial, by omega⟩

/-- Witness for C3: five `"ReSend"` submissions then one wrong code leave the
conversation at the OTP step with one attempt. -/
theorem otp_resend_frame_witness :
    (runComplaint ⟨complaint_start ['u'], some .askOtp⟩
        [mkResendEv resendCapsTxt true, mkResendEv resendCapsTxt false,
          mkResendEv resendCapsTxt true, mkResendEv resendCapsTxt true,
          mkResendEv resendCapsTxt true, mkCodeEv code1 false]).st = some .askOtp ∧
    (runComplaint ⟨complaint_start ['u'], some .askOtp⟩
        [mkResendEv resendCapsTxt true, mkResendEv resendCapsTxt false,
          mkResendEv resendCapsTxt true, mkResendEv resendCapsTxt true,
          mkResendEv resendCapsTxt true, mkCodeEv code1 false]).sess.otp_attempts = 1 :=
  otp_resend_frame.2 (complaint_start ['u']) resendCapsTxt resendCapsTxt resendCapsTxt
    resendCapsTxt resendCapsTxt code1 true false true true true rfl
    (by decide) (by decide) (by decide) (by decide) (by decide) (by decide) (by decide)

/-! ### Claim C2: the attempt counter is reset only at session creation -/

lemma goodCB_start (uid : Str) : goodCB (complaintStartCfg uid) = true := rfl

lemma goodCB_step (c : CConfig) (ev : Ev) (h : goodCB c = true) :
    goodCB (complaintStep c ev) = true := by
  obtain ⟨s, st⟩ := c
  cases st with
  | none => exact h
  | some st =>
    rcases hm : ev.msg with t | _ | ⟨m, f⟩ | _
    · by_cases h1 : strStartsWith slashTxt t = true
      · by_cases h2 : t = cancelCmdTxt
        · subst h2
          have hcc : strStartsWith slashTxt cancelCmdTxt = true := by decide
          simp [complaintStep, complaintDispatch, hm, hcc, goodCB]
        · simp [complaintStep, complaintDispatch, hm, h1, h2, noDispatch, h]
      · by_cases h2 : t.isEmpty = true
        · simpa [complaintStep, complaintDispatch, hm, h1, h2, noDispatch] using h
        · cases st <;>
            simp only [complaintStep, complaintDispatch, hm, if_neg h1, if_neg h2,
              liftH, complaintTextHandler]
          · simpa [complaint_name, goodCB] using h
          · simpa [complaint_father_name, goodCB] using h
          · simpa [complaint_age, goodCB] using h
          · cases hb : ev.sendOk
            · simp [complaint_phone, hb, goodCB]
              simpa [goodCB] using h
            · simp [complaint_phone, hb, goodCB]
          · unfold complaint_otp
            by_cases hr : isResendCode t = true
            · cases hb : ev.sendOk <;> simp [hr, hb, goodCB]
            · cases hb : ev.verifyOk
              · by_cases h3 : 3 ≤ s.otp_attempts + 1 <;> simp [hr, hb, h3, goodCB]
              · simp [hr, hb, goodCB]
          · unfold complaint_email
            by_cases hk : (pyLower (pyStrip t) == kwSkip) = true <;> simp [hk, goodCB]
          · unfold complaint_aadhaar
            have h2x : t.isEmpty = false := by simpa using h2
            by_cases hk : (pyLower t == kwCancel) = true <;> simp [h2x, hk, goodCB]
          · simp [complaint_address, goodCB]
          · cases hcl : ev.classify <;>
              simp [complaint_initial_description, hcl, goodCB]
          · simp [complaint_type, goodCB]
          · simp [complaint_date, goodCB]
          · simp [complaint_location, goodCB]
          · unfold complaint_description
            cases hre : ev.render
            · simp [goodCB]
            · cases hsv : ev.saveId <;> simp [goodCB]
    · cases st <;>
        simpa [complaintStep, complaintDispatch, hm, noDispatch, liftH,
          complaint_aadhaar, goodCB] using h
    · cases st <;>
        simp only [complaintStep, complaintDispatch, hm, noDispatch, liftH] <;>
        first
          | simpa [goodCB] using h
          | (unfold complaint_aadhaar
             by_cases hk : (m.getD []).isEmpty = true
             · simp [hk, goodCB]
             · by_cases hk2 : strStartsWith imageMarker (m.getD []) = true <;>
                 simp [hk, hk2, goodCB])
    · cases st <;>
        simpa [complaintStep, complaintDispatch, hm, noDispatch] using h

lemma goodCB_run (evs : List Ev) (c : CConfig) (h : goodCB c = true) :
    goodCB (runComplaint c evs) = true := by
  induction evs generalizing c with
  | nil => exact h
  | cons ev evs ih => exact ih _ (goodCB_step c ev h)

/-- One complaint event never decreases the attempt counter, and at the phone
step it leaves the counter exactly unchanged. -/
lemma step_attempts (c : CConfig) (ev : Ev) (h : goodCB c = true) :
    c.sess.otp_attempts ≤ (complaintStep c ev).sess.otp_attempts ∧
    (c.st = some CState.askPhone →
      (complaintStep c ev).sess.otp_attempts = c.sess.otp_attempts) := by
  obtain ⟨s, st⟩ := c
  cases st with
  | none => exact ⟨Nat.le_refl _, by simp⟩
  | some st =>
    rcases hm : ev.msg with t | _ | ⟨m, f⟩ | _
    · by_cases h1 : strStartsWith slashTxt t = true
      · by_cases h2 : t = cancelCmdTxt
        · subst h2
          have hcc : strStartsWith slashTxt cancelCmdTxt = true := by decide
          constructor
          · simp [complaintStep, complaintDispatch, hm, hcc]
          · intro _
            simp [complaintStep, complaintDispatch, hm, hcc]
        · constructor
          · simp [complaintStep, complaintDispatch, hm, h1, h2, noDispatch]
          · intro _
            simp [complaintStep, complaintDispatch, hm, h1, h2, noDispatch]
      · by_cases h2 : t.isEmpty = true
        · constructor
          · simp [complaintStep, complaintDispatch, hm, h1, h2, noDispatch]
          · intro _
            simp [complaintStep, complaintDispatch, hm, h1, h2, noDispatch]
        · cases st <;>
            simp only [complaintStep, complaintDispatch, hm, if_neg h1, if_neg h2,
              liftH, complaintTextHandler]
          · exact ⟨by simp [complaint_name], by simp⟩
          · exact ⟨by simp [complaint_father_name], by simp⟩
          · exact ⟨by simp [complaint_age], by simp⟩
          · have h0 : s.otp_attempts = 0 := by simpa [goodCB] using h
            cases hb : ev.sendOk
            · exact ⟨by simp [complaint_phone, hb], fun _ => by simp [complaint_phone, hb]⟩
            · exact ⟨by simp [complaint_phone, hb, h0],
                fun _ => by simp [complaint_phone, hb, h0]⟩
          · refine ⟨?_, by simp⟩
            unfold complaint_otp
            by_cases hr : isResendCode t = true
            · cases hb : ev.sendOk <;> simp [hr, hb]
            · cases hb : ev.verifyOk
              · by_cases h3 : 3 ≤ s.otp_attempts + 1 <;> simp [hr, hb, h3]
              · simp [hr, hb]
          · refine ⟨?_, by simp⟩
            unfold complaint_email
            by_cases hk : (pyLower (pyStrip t) == kwSkip) = true <;> simp [hk]
          · refine ⟨?_, by simp⟩
            unfold complaint_aadhaar
            have h2x : t.isEmpty = false := by simpa using h2
            by_cases hk : (pyLower t == kwCancel) = true <;> simp [h2x, hk]
          · exact ⟨by simp [complaint_address], by simp⟩
          · refine ⟨?_, by simp⟩
            cases hcl : ev.classify <;> simp [complaint_initial_description, hcl]
          · exact ⟨by simp [complaint_type], by simp⟩
          · exact ⟨by simp [complaint_date], by simp⟩
          · exact ⟨by simp [complaint_location], by simp⟩
          · refine ⟨?_, by simp⟩
            unfold complaint_description
            cases hre : ev.render
            · simp
            · cases hsv : ev.saveId <;> simp
    · cases st <;>
        simp only [complaintStep, complaintDispatch, hm, noDispatch, liftH] <;>
        refine ⟨?_, fun hx => ?_⟩ <;>
        first
          | rfl
          | (simp at hx
             done)
          | (simp [complaint_aadhaar]
             done)
    · cases st <;>
        simp only [complaintStep, complaintDispatch, hm, noDispatch, liftH] <;>
        refine ⟨?_, fun hx => ?_⟩ <;>
        first
          | rfl
          | (simp at hx
             done)
          | (simp
             done)
          | (unfold complaint_aadhaar
             by_cases hk : (m.getD []).isEmpty = true
             · simp [hk]
             · by_cases hk2 : strStartsWith imageMarker (m.getD []) = true <;>
                 simp [hk, hk2])
    · cases st <;>
        simp only [complaintStep, complaintDispatch, hm, noDispatch, liftH] <;>
        refine ⟨?_, fun hx => ?_⟩ <;>
        first
          | rfl
          | (simp
             done)

lemma goodRB_start (uid : Str) : goodRB (rtiStartCfg uid) = true := rfl

lemma goodRB_step (c : RConfig) (ev : Ev) (h : goodRB c = true) :
    goodRB (rtiStep c ev) = true := by
  obtain ⟨s, st⟩ := c
  cases st with
  | none => exact h
  | some st =>
    rcases hm : ev.msg with t | _ | ⟨m, f⟩ | _
    · by_cases h1 : strStartsWith slashTxt t = true
      · by_cases h2 : t = cancelCmdTxt
        · subst h2
          have hcc : strStartsWith slashTxt cancelCmdTxt = true := by decide
          simp [rtiStep, rtiDispatch, hm, hcc, goodRB]
        · simp [rtiStep, rtiDispatch, hm, h1, h2, noRDispatch, h]
      · by_cases h2 : t.isEmpty = true
        · simpa [rtiStep, rtiDispatch, hm, h1, h2, noRDispatch] using h
        · cases st <;>
            simp only [rtiStep, rtiDispatch, hm, if_neg h1, if_neg h2,
              liftRH, rtiTextHandler]
          · simpa [rti_name, goodRB] using h
          · cases hb : ev.sendOk
            · simp [rti_phone, hb, goodRB]
              simpa [goodRB] using h
            · simp [rti_phone, hb, goodRB]
          · unfold rti_otp
            by_cases hr : isResendCode t = true
            · cases hb : ev.sendOk <;> simp [hr, hb, goodRB]
            · cases hb : ev.verifyOk
              · by_cases h3 : 3 ≤ s.otp_attempts + 1 <;> simp [hr, hb, h3, goodRB]
              · simp [hr, hb, goodRB]
          · unfold rti_email
            by_cases hk : (pyLower (pyStrip t) == kwSkip) = true <;> simp [hk, goodRB]
          · unfold rti_aadhaar
            have h2x : t.isEmpty = false := by simpa using h2
            by_cases hk : (pyLower t == kwCancel) = true <;> simp [h2x, hk, goodRB]
          · simp [rti_address, goodRB]
          · simp [rti_department, goodRB]
          · simp [rti_info, goodRB]
          · unfold rti_purpose
            by_cases hk : (pyLower t == kwSkip) = true <;>
              cases hre : ev.render <;>
              first
                | (simp [hk, hre, goodRB]
                   done)
                | (cases hsv : ev.saveId <;> simp [hk, hre, hsv, goodRB])
    · cases st <;>
        simpa [rtiStep, rtiDispatch, hm, noRDispatch, liftRH,
          rti_aadhaar, goodRB] using h
    · cases st <;>
        simp only [rtiStep, rtiDispatch, hm, noRDispatch, liftRH] <;>
        first
          | simpa [goodRB] using h
          | (unfold rti_aadhaar
             by_cases hk : (m.getD []).isEmpty = true
             · simp [hk, goodRB]
             · by_cases hk2 : strStartsWith imageMarker (m.getD []) = true <;>
                 simp [hk, hk2, goodRB])
    · cases st <;>
        simpa [rtiStep, rtiDispatch, hm, noRDispatch] using h

lemma goodRB_run (evs : List Ev) (c : RConfig) (h : goodRB c = true) :
    goodRB (runRti c evs) = true := by
  induction evs generalizing c with
  | nil => exact h
  | cons ev evs ih => exact ih _ (goodRB_step c ev h)

/-- One RTI event never decreases the attempt counter, and at the phone step
it leaves the counter exactly unchanged. -/
lemma rti_step_attempts (c : RConfig) (ev : Ev) (h : goodRB c = true) :
    c.sess.otp_attempts ≤ (rtiStep c ev).sess.otp_attempts ∧
    (c.st = some RState.rAskPhone →
      (rtiStep c ev).sess.otp_attempts = c.sess.otp_attempts) := by
  obtain ⟨s, st⟩ := c
  cases st with
  | none => exact ⟨Nat.le_refl _, by simp⟩
  | some st =>
    rcases hm : ev.msg with t | _ | ⟨m, f⟩ | _
    · by_cases h1 : strStartsWith slashTxt t = true
      · by_cases h2 : t = cancelCmdTxt
        · subst h2
          have hcc : strStartsWith slashTxt cancelCmdTxt = true := by decide
          constructor
          · simp [rtiStep, rtiDispatch, hm, hcc]
          · intro _
            simp [rtiStep, rtiDispatch, hm, hcc]
        · constructor
          · simp [rtiStep, rtiDispatch, hm, h1, h2, noRDispatch]
          · intro _
            simp [rtiStep, rtiDispatch, hm, h1, h2, noRDispatch]
      · by_cases h2 : t.isEmpty = true
        · constructor
          · simp [rtiStep, rtiDispatch, hm, h1, h2, noRDispatch]
          · intro _
            simp [rtiStep, rtiDispatch, hm, h1, h2, noRDispatch]
        · cases st <;>
            simp only [rtiStep, rtiDispatch, hm, if_neg h1, if_neg h2,
              liftRH, rtiTextHandler]
          · exact ⟨by simp [rti_name], by simp⟩
          · have h0 : s.otp_attempts = 0 := by simpa [goodRB] using h
            cases hb : ev.sendOk
            · exact ⟨by simp [rti_phone, hb], fun _ => by simp [rti_phone, hb]⟩
            · exact ⟨by simp [rti_phone, hb, h0],
                fun _ => by simp [rti_phone, hb, h0]⟩
          · refine ⟨?_, by simp⟩
            unfold rti_otp
            by_cases hr : isResendCode t = true
            · cases hb : ev.sendOk <;> simp [hr, hb]
            · cases hb : ev.verifyOk
              · by_cases h3 : 3 ≤ s.otp_attempts + 1 <;> simp [hr, hb, h3]
              · simp [hr, hb]
          · refine ⟨?_, by simp⟩
            unfold rti_email
            by_cases hk : (pyLower (pyStrip t) == kwSkip) = true <;> simp [hk]
          · refine ⟨?_, by simp⟩
            unfold rti_aadhaar
            have h2x : t.isEmpty = false := by simpa using h2
            by_cases hk : (pyLower t == kwCancel) = true <;> simp [h2x, hk]
          · exact ⟨by simp [rti_address], by simp⟩
          · exact ⟨by simp [rti_department], by simp⟩
          · exact ⟨by simp [rti_info], by simp⟩
          · refine ⟨?_, by simp⟩
            unfold rti_purpose
            by_cases hk : (pyLower t == kwSkip) = true <;>
              cases hre : ev.render <;>
              first
                | (simp [hk, hre]
                   done)
                | (cases hsv : ev.saveId <;> simp [hk, hre, hsv])
    · cases st <;>
        simp only [rtiStep, rtiDispatch, hm, noRDispatch, liftRH] <;>
        refine ⟨?_, fun hx => ?_⟩ <;>
        first
          | rfl
          | (simp at hx
             done)
          | (simp [rti_aadhaar]
             done)
    · cases st <;>
        simp only [rtiStep, rtiDispatch, hm, noRDispatch, liftRH] <;>
        refine ⟨?_, fun hx => ?_⟩ <;>
        first
          | rfl
          | (simp at hx
             done)
          | (simp
             done)
          | (unfold rti_aadhaar
             by_cases hk : (m.getD []).isEmpty = true
             · simp [hk]
             · by_cases hk2 : strStartsWith imageMarker (m.getD []) = true <;>
                 simp [hk, hk2])
    · cases st <;>
        simp only [rtiStep, rtiDispatch, hm, noRDispatch, liftRH] <;>
        refine ⟨?_, fun hx => ?_⟩ <;>
        first
          | rfl
          | (simp
             done)

/-- C2: the attempt counter is 0 when a session is created; along any run of a
session, no event ever decreases it (so nothing within a session's lifetime
resets it), and an event arriving at the phone-collection step — in particular
a re-entered phone number after a failed send — leaves it exactly unchanged.
Stated for the complaint and RTI machines. -/
theorem otp_attempts_reset_only_at_creation :
    (∀ uid : Str, (complaintStartCfg uid).sess.otp_attempts = 0 ∧
      (rtiStartCfg uid).sess.otp_attempts = 0) ∧
    (∀ (uid : Str) (evs : List Ev) (ev : Ev),
      (runComplaint (complaintStartCfg uid) evs).sess.otp_attempts ≤
        (complaintStep (runComplaint (complaintStartCfg uid) evs) ev).sess.otp_attempts ∧
      ((runComplaint (complaintStartCfg uid) evs).st = some CState.askPhone →
        (complaintStep (runComplaint (complaintStartCfg uid) evs) ev).sess.otp_attempts =
          (runComplaint (complaintStartCfg uid) evs).sess.otp_attempts)) ∧
    (∀ (uid : Str) (evs : List Ev) (ev : Ev),
      (runRti (rtiStartCfg uid) evs).sess.otp_attempts ≤
        (rtiStep (runRti (rtiStartCfg uid) evs) ev).sess.otp_attempts ∧
      ((runRti (rtiStartCfg uid) evs).st = some RState.rAskPhone →
        (rtiStep (runRti (rtiStartCfg uid) evs) ev).sess.otp_attempts =
          (runRti (rtiStartCfg uid) evs).sess.otp_attempts)) :=
  ⟨fun _ => ⟨rfl, rfl⟩,
    fun uid evs ev =>
      step_attempts (runComplaint (complaintStartCfg uid) evs) ev
        (goodCB_run evs (complaintStartCfg uid) (goodCB_start uid)),
    fun uid evs ev =>
      rti_step_attempts (runRti (rtiStartCfg uid) evs) ev
        (goodRB_run evs (rtiStartCfg uid) (goodRB_start uid))⟩

/-- Witness for C2: a session driven to the phone step, where a re-entered
phone number with a failed send leaves the attempt counter unchanged. -/
theorem otp_attempts_reset_only_at_creation_witness :
    (runComplaint (complaintStartCfg ['u']) demoEvs).st = some CState.askPhone ∧
    (complaintStep (runComplaint (complaintStartCfg ['u']) demoEvs)
        demoPhoneEv).sess.otp_attempts =
      (runComplaint (complaintStartCfg ['u']) demoEvs).sess.otp_attempts :=
  ⟨by decide,
    (otp_attempts_reset_only_at_creation.2.1 ['u'] demoEvs demoPhoneEv).2 (by decide)⟩

end KakBot
